import Mathlib

/-!
# Verification of the hs_apply applicant lifecycle and review-assignment engine

Shallow embedding of the core services of the hackathon application platform:

* `ApplicantService` (`save`, `delete`, `getKRandomToReview`) from
  `src/services/applications/applicantService.ts`;
* `ApplicationController` (`submitApplication`, `cancel`, `checkin`, `isNumeric`)
  from `src/controllers/applicationController.ts`;
* the Review Recording Service, modelled from the spec (its source file is not
  part of the excerpt; only its tests and the spec describe it).

Stateful code is embedded as explicit state passing over a `Store` (repository
rows plus object-storage blobs).  Fallible infrastructure calls (object-storage
upload/delete, repository persist/delete) are modelled by an `Infra` record of
success flags; every service operation returns the committed store, the list of
infrastructure side effects it attempted (in order), and an `Except` result
carrying the same error messages the source throws.
-/

/-- Modelled from the spec: the `ApplicantStatus` enum
(`src/services/applications/applicantStatus.ts` is not part of the excerpt).
Spec §3: ordered enum `Applied < Invited < Confirmed < Cancelled/Rejected <
Admitted`, persisted as its ordered numeric representation. -/
inductive ApplicantStatus where
  | Applied
  | Invited
  | Confirmed
  | Cancelled
  | Rejected
  | Admitted
  deriving DecidableEq, Repr

/-- The ordered numeric representation of `ApplicantStatus`
(a TypeScript numeric enum, declaration order). -/
def ApplicantStatus.code : ApplicantStatus → Nat
  | .Applied => 0
  | .Invited => 1
  | .Confirmed => 2
  | .Cancelled => 3
  | .Rejected => 4
  | .Admitted => 5

/-- Modelled from the spec: the `Applicant` entity (`src/models/db/applicant.ts`
is not part of the excerpt).  Fields follow spec §3 and the assignments in
`ApplicationController.submitApplication`.  `cv` and `hackathonCount` are
optional; timestamps are abstracted to a `Nat` creation time. -/
structure Applicant where
  id : Nat
  authId : String
  age : Int
  gender : String
  nationality : String
  country : String
  city : String
  university : String
  yearOfStudy : String
  degree : String
  workArea : String
  skills : Option String
  hackathonCount : Option Int
  whyChooseHacker : Option String
  pastProjects : Option String
  hardwareRequests : Option String
  dietaryRequirements : String
  tShirtSize : String
  hearAbout : String
  cv : Option String
  applicationStatus : ApplicantStatus
  createdAt : Nat
  deriving DecidableEq, Repr

/-- Modelled from the spec: the `Review` entity (`src/models/db/review.ts` is
not part of the excerpt).  Spec §3: identity, `applicantId`, `createdByAuthID`,
`averageScore`, `createdAt`. -/
structure Review where
  id : Nat
  applicantId : Nat
  createdByAuthID : String
  averageScore : Int
  createdAt : Nat
  deriving DecidableEq, Repr

/-- The shared persistent state: object-storage blob keys plus the Applicant
table.  (The Review table is kept separately where the assignment query and the
review-recording model need it.) -/
structure Store where
  blobs : List String
  applicants : List Applicant
  deriving DecidableEq, Repr

/-- Success flags for the fallible infrastructure collaborators: the
object-storage client (`upload`, `delete`) and the TypeORM repository
(`save`, `delete`). -/
structure Infra where
  uploadOk : Bool
  blobDeleteOk : Bool
  persistOk : Bool
  repoDeleteOk : Bool
  deriving DecidableEq, Repr

/-- An infrastructure call attempted by a service operation, in program order.
Attempts are recorded whether or not they succeed. -/
inductive Effect where
  | uploadAttempt (key : String)
  | persistAttempt
  | blobDeleteAttempt (key : String)
  | repoDeleteAttempt
  deriving DecidableEq, Repr

/-- JavaScript truthiness of the optional `cv` string field: `undefined` and
the empty string are falsy (`if (file && newApplicant.cv)` in the source). -/
def cvTruthy (a : Applicant) : Bool :=
  match a.cv with
  | none => false
  | some s => s ≠ ""

/-- TypeORM `repository.save` semantics on an existing table: update the row
with the same id if present, insert otherwise. -/
def upsertApplicant (l : List Applicant) (a : Applicant) : List Applicant :=
  a :: l.filter (fun x => x.id ≠ a.id)

/-- `repository.findOne({ id })`. -/
def findApplicant (st : Store) (id : Nat) : Option Applicant :=
  st.applicants.find? (fun a => a.id == id)

/-- `repository.findOne({ authId })`, the `findBy = "authId"` case of
`ApplicantService.findOne`. -/
def findByAuthId (st : Store) (authId : String) : Option Applicant :=
  st.applicants.find? (fun a => a.authId == authId)

/-- Modelled from the spec: the class-validator constraints declared on the
`Applicant` entity (`src/models/db/applicant.ts` is not part of the excerpt).
Spec §4.1: "required fields present, enumerations valid, numeric fields
non-negative".  Returns the list of violations, as `validateOrReject` reports
them. -/
def validateApplicant (a : Applicant) : List String :=
  (if a.age < 0 then ["age must be non-negative"] else []) ++
  (match a.hackathonCount with
   | some n => if n < 0 then ["hackathonCount must be non-negative"] else []
   | none => []) ++
  (if a.gender = "" then ["gender should not be empty"] else []) ++
  (if a.nationality = "" then ["nationality should not be empty"] else []) ++
  (if a.country = "" then ["country should not be empty"] else []) ++
  (if a.city = "" then ["city should not be empty"] else []) ++
  (if a.university = "" then ["university should not be empty"] else []) ++
  (if a.degree = "" then ["degree should not be empty"] else []) ++
  (if a.tShirtSize ∈ ["XS", "S", "M", "L", "XL", "XXL"] then []
   else ["tShirtSize must be a valid size"])

namespace ApplicantService

/-- `ApplicantService.save(newApplicant, file?)`: validate with
`validateOrReject` (failure is logged and re-thrown as the fixed message
`"Failed to validate applicant"`); if a file buffer and a truthy `cv` key are
both present, upload the CV first (failure aborts with
`"Failed to save applicant CV"`); finally persist the applicant.  A repository
failure rolls the transaction back (the Applicant table is unchanged) but a
completed object-storage upload is external and stays. -/
def save (infra : Infra) (st : Store) (a : Applicant) (file : Option Nat) :
    Store × List Effect × Except String Applicant :=
  if validateApplicant a ≠ [] then
    (st, [], .error "Failed to validate applicant")
  else if file.isSome && cvTruthy a then
    let key := a.cv.getD ""
    if infra.uploadOk then
      let st1 : Store := { st with blobs := key :: st.blobs }
      if infra.persistOk then
        ({ st1 with applicants := upsertApplicant st1.applicants a },
         [.uploadAttempt key, .persistAttempt], .ok a)
      else
        (st1, [.uploadAttempt key, .persistAttempt], .error "Failed to save applicant")
    else
      (st, [.uploadAttempt key], .error "Failed to save applicant CV")
  else
    if infra.persistOk then
      ({ st with applicants := upsertApplicant st.applicants a },
       [.persistAttempt], .ok a)
    else
      (st, [.persistAttempt], .error "Failed to save applicant")

/-- `ApplicantService.delete(id)`: `findOneOrFail` (absence aborts with
`"Failed to find applicant using the provided ID"`); if the applicant has a
truthy CV key, best-effort delete the blob (failure is logged and swallowed);
then delete the Applicant row, returning the deletion result. -/
def delete (infra : Infra) (st : Store) (id : Nat) :
    Store × List Effect × Except String Unit :=
  match findApplicant st id with
  | none => (st, [], .error "Failed to find applicant using the provided ID")
  | some a =>
    let step1 : Store × List Effect :=
      if cvTruthy a then
        let key := a.cv.getD ""
        if infra.blobDeleteOk then
          ({ st with blobs := st.blobs.filter (fun b => b ≠ key) }, [.blobDeleteAttempt key])
        else
          (st, [.blobDeleteAttempt key])
      else
        (st, [])
    let st1 := step1.1
    if infra.repoDeleteOk then
      ({ st1 with applicants := st1.applicants.filter (fun x => x.id ≠ id) },
       step1.2 ++ [.repoDeleteAttempt], .ok ())
    else
      (st1, step1.2 ++ [.repoDeleteAttempt], .error "Failed to remove an applicant")

/-- Number of reviews recorded for applicant `aid`, across all reviewers: the
`COUNT(review.applicantId) ... GROUP BY review.applicantId` subquery. -/
def reviewCountFor (reviews : List Review) (aid : Nat) : Nat :=
  (reviews.filter (fun r => r.applicantId == aid)).length

/-- Whether `reviewerID` has already reviewed applicant `aid`: the
`review.createdByAuthID = :authID` subquery. -/
def reviewedBy (reviews : List Review) (reviewerID : String) (aid : Nat) : Bool :=
  reviews.any (fun r => r.applicantId == aid && r.createdByAuthID == reviewerID)

/-- The WHERE clause of the `getKRandomToReview` query builder: status is
`Applied`, the id of the applicant is not in the ≥2-reviews subquery, and not in the
already-reviewed-by-this-reviewer subquery. -/
def eligibleForReview (reviews : List Review) (reviewerID : String) (a : Applicant) : Bool :=
  a.applicationStatus == ApplicantStatus.Applied
    && decide (reviewCountFor reviews a.id < 2)
    && !reviewedBy reviews reviewerID a.id

/-- `ORDER BY application.createdAt ASC` comparator. -/
def byCreatedAt (a b : Applicant) : Bool :=
  a.createdAt ≤ b.createdAt

/-- The relational content of the query built inside `getKRandomToReview`:
filter by the eligibility predicate, order ascending by creation time, take
`chooseFromK` rows. -/
def assignmentQuery (applicants : List Applicant) (reviews : List Review)
    (reviewerID : String) (chooseFromK : Nat) : List Applicant :=
  ((applicants.filter (eligibleForReview reviews reviewerID)).mergeSort byCreatedAt).take
    chooseFromK

/-- `ApplicantService.getKRandomToReview(reviewerID, chooseFromK = 5)`.
`queryOk` models whether the underlying repository query succeeds; on failure
the error is logged and the empty list is returned (the `catch` branch). -/
def getKRandomToReview (queryOk : Bool) (applicants : List Applicant)
    (reviews : List Review) (reviewerID : String) (chooseFromK : Nat := 5) :
    List Applicant :=
  if queryOk then assignmentQuery applicants reviews reviewerID chooseFromK
  else []

end ApplicantService

/-! ## JavaScript value model for the request payload

`ApplicationController.submitApplication` reads duck-typed request fields and
combines them with `||` (truthiness) and `Number`/`parseFloat` coercions.  We
model a payload field as `undefined`, a finite number, or a string, and model
the numeric coercions on the integer fragment of JavaScript number syntax
(optional sign, decimal digits, `Infinity`, surrounding whitespace); fractional
and exponent forms are outside the model. -/

inductive JSVal where
  | undef
  | num (n : Int)
  | str (s : String)
  deriving DecidableEq, Repr

/-- JavaScript truthiness: `undefined`, `0` and `""` are falsy. -/
def jsTruthy : JSVal → Bool
  | .undef => false
  | .num n => n ≠ 0
  | .str s => s ≠ ""

/-- String coercion of a payload value, for assignment into a string field. -/
def jsValToString : JSVal → String
  | .undef => "undefined"
  | .num n => toString n
  | .str s => s

/-- A JavaScript number restricted to the integer fragment: `NaN`, the two
infinities, or a finite integer. -/
inductive JSNum where
  | nan
  | posInf
  | negInf
  | fin (n : Int)
  deriving DecidableEq, Repr

def charIsDigit (c : Char) : Bool :=
  decide ('0' ≤ c) && decide (c ≤ '9')

def digitsVal (cs : List Char) : Nat :=
  cs.foldl (fun a c => a * 10 + (c.toNat - 48)) 0

/-- `Number(s)` on the integer fragment: trim whitespace; empty becomes `0`;
then an optional sign followed by either only digits or `Infinity`; anything
else is `NaN`. -/
def jsNumberOfString (s : String) : JSNum :=
  let t := ((s.toList.dropWhile (· = ' ')).reverse.dropWhile (· = ' ')).reverse
  match t with
  | [] => .fin 0
  | c :: rest =>
    let signed : Bool × List Char :=
      if c = '-' then (true, rest)
      else if c = '+' then (false, rest)
      else (false, c :: rest)
    let neg := signed.1
    let body := signed.2
    if body ≠ [] ∧ body.all charIsDigit then
      let v : Int := digitsVal body
      .fin (if neg then -v else v)
    else if body = "Infinity".toList then
      (if neg then .negInf else .posInf)
    else .nan

/-- `parseFloat(s)` on the integer fragment: skip leading whitespace, read an
optional sign, then the longest digit prefix (or an `Infinity` prefix); `NaN`
if no digits are found. -/
def jsParseFloatOfString (s : String) : JSNum :=
  let t := s.toList.dropWhile (· = ' ')
  let signed : Bool × List Char :=
    match t with
    | c :: rest =>
      if c = '-' then (true, rest)
      else if c = '+' then (false, rest)
      else (false, t)
    | [] => (false, t)
  let neg := signed.1
  let body := signed.2
  if "Infinity".toList.isPrefixOf body then (if neg then .negInf else .posInf)
  else
    let ds := body.takeWhile charIsDigit
    if ds = [] then .nan
    else .fin (if neg then -(digitsVal ds : Int) else (digitsVal ds : Int))

/-- `Number(v)`: `undefined` coerces to `NaN`; numbers are themselves; strings
parse whole. -/
def jsNumber : JSVal → JSNum
  | .undef => .nan
  | .num n => .fin n
  | .str s => jsNumberOfString s

/-- `parseFloat(v)`: the argument is first coerced to a string
(`undefined` gives `"undefined"`, which parses to `NaN`). -/
def jsParseFloat : JSVal → JSNum
  | .undef => .nan
  | .num n => .fin n
  | .str s => jsParseFloatOfString s

def JSNum.isFinite : JSNum → Bool
  | .fin _ => true
  | _ => false

namespace ApplicationController

/-- `ApplicationController.isNumeric(n)`:
`!isNaN(parseFloat(n)) && isFinite(n)` (note: `isFinite` coerces its argument
with `Number`, testing the whole string, while `parseFloat` only needs a
numeric prefix). -/
def isNumeric (n : JSVal) : Bool :=
  !(jsParseFloat n == JSNum.nan) && (jsNumber n).isFinite

/-- The `x || y || "Other"` pattern used for the gender, work-area, dietary and
hear-about fields: the free-text "Other" value when truthy, else the selected
value when truthy, else the literal `"Other"`. -/
def firstTruthy (other sel : JSVal) : JSVal :=
  if jsTruthy other then other
  else if jsTruthy sel then sel
  else .str "Other"

/-- The request payload fields destructured by `submitApplication`.  Fields
that the controller assigns verbatim are modelled at their stored type; fields
that go through truthiness or numeric coercion are modelled as `JSVal`. -/
structure ApplicationPayload where
  applicantAge : JSVal
  applicantGender : JSVal
  applicantGenderOther : JSVal
  applicantNationality : String
  applicantCountry : String
  applicantCity : String
  applicantUniversity : String
  applicantStudyYear : String
  applicantDegree : String
  applicantWorkArea : JSVal
  applicantWorkAreaOther : JSVal
  applicantSkills : Option String
  applicantHackathonCount : JSVal
  applicantWhyChoose : Option String
  applicantPastProj : Option String
  applicantHardwareReq : Option String
  applicantDietaryRequirements : JSVal
  applicantDietaryRequirementsOther : JSVal
  applicantTShirt : String
  applicantHearAbout : JSVal
  applicantHearAboutOther : JSVal
  deriving Repr

/-- `newApplication.hackathonCount = this.isNumeric(c) ? Number(c) : undefined`.
When `isNumeric` holds, `Number` of the field is finite, so the non-`fin`
match arm is unreachable. -/
def submittedHackathonCount (v : JSVal) : Option Int :=
  if isNumeric v then
    match jsNumber v with
    | .fin n => some n
    | _ => none
  else none

/-- `Number(applicantAge)` stored into the `age` field; non-finite results are
outside the integer-fragment model and default to `0`. -/
def submittedAge (v : JSVal) : Int :=
  match jsNumber v with
  | .fin n => n
  | _ => 0

/-- The `Applicant` constructed by `submitApplication` (source lines 81–102)
from the request payload and the id of the authenticated user.  The database-
assigned `id`/`createdAt` are `0` at construction; `cv` is set separately by
the file-handling block and is `none` here. -/
def buildApplication (reqAuthId : String) (p : ApplicationPayload) : Applicant :=
  { id := 0
    authId := reqAuthId
    age := submittedAge p.applicantAge
    gender := jsValToString (firstTruthy p.applicantGenderOther p.applicantGender)
    nationality := p.applicantNationality
    country := p.applicantCountry
    city := p.applicantCity
    university := p.applicantUniversity
    yearOfStudy := p.applicantStudyYear
    degree := p.applicantDegree
    workArea := jsValToString (firstTruthy p.applicantWorkAreaOther p.applicantWorkArea)
    skills := p.applicantSkills
    hackathonCount := submittedHackathonCount p.applicantHackathonCount
    whyChooseHacker := p.applicantWhyChoose
    pastProjects := p.applicantPastProj
    hardwareRequests := p.applicantHardwareReq
    dietaryRequirements :=
      jsValToString (firstTruthy p.applicantDietaryRequirementsOther p.applicantDietaryRequirements)
    tShirtSize := p.applicantTShirt
    hearAbout := jsValToString (firstTruthy p.applicantHearAboutOther p.applicantHearAbout)
    cv := none
    applicationStatus := .Applied
    createdAt := 0 }

/-- An HTTP-level outcome of a controller action. -/
inductive HttpOutcome where
  | ok (msg : String)
  | badRequest (msg : String)
  | redirect (path : String)
  | nextError (msg : String)
  deriving DecidableEq, Repr

/-- `ApplicationController.checkin`: look the applicant up by the path id
(lookup failure answers 400 `"Hacker could not be checked in"`); if the status
is `Confirmed`, set it to `Admitted` and save (save failure answers the same
400); any other status answers 400
`"Hacker was either rejected or did not confirm"` without touching state. -/
def checkin (infra : Infra) (st : Store) (id : Nat) : Store × HttpOutcome :=
  match findApplicant st id with
  | none => (st, .badRequest "Hacker could not be checked in")
  | some a =>
    if a.applicationStatus == ApplicantStatus.Confirmed then
      let a2 : Applicant := { a with applicationStatus := ApplicantStatus.Admitted }
      let saved := ApplicantService.save infra st a2 none
      match saved.2.2 with
      | .ok _ => (saved.1, .ok "Hacker checked in!")
      | .error _ => (saved.1, .badRequest "Hacker could not be checked in")
    else
      (st, .badRequest "Hacker was either rejected or did not confirm")

/-- `ApplicationController.cancel`: look the applicant up by the requesting
authId of the requesting user (failure forwards the error to `next`); when the status is
`<= Applied` and applications are open, the code enters the delete branch —
but it invokes `this._applicantService.remove(application.id)`, and
`ApplicantService` defines no `remove` method (its interface and the e2e test
use `delete`), so the call raises a `TypeError` that the surrounding `catch`
forwards to `next` and no row is deleted; otherwise the status is set to
`Cancelled` and saved. -/
def cancel (applicationsOpen : Bool) (infra : Infra) (st : Store) (authId : String) :
    Store × HttpOutcome :=
  match findByAuthId st authId with
  | none => (st, .nextError "Failed to find an applicant")
  | some a =>
    if a.applicationStatus.code ≤ ApplicantStatus.Applied.code && applicationsOpen then
      (st, .nextError "TypeError: this._applicantService.remove is not a function")
    else
      let a2 : Applicant := { a with applicationStatus := ApplicantStatus.Cancelled }
      let saved := ApplicantService.save infra st a2 none
      match saved.2.2 with
      | .ok _ => (saved.1, .redirect "/")
      | .error e => (saved.1, .nextError e)

end ApplicationController

namespace ReviewService

/-- A review submission: the reviewer identity, the target applicant, the
caller-computed average score, and the submission time. -/
structure ReviewSubmission where
  reviewerID : String
  applicantId : Nat
  averageScore : Int
  createdAt : Nat
  deriving DecidableEq, Repr

/-- Modelled from the spec: the Review Recording Service (§4.3) — its source
file is not part of the excerpt; only the e2e test and the spec describe it.
Spec: "Creates a Review row binding `(applicantId, reviewerID, score, now())`.
Must reject (fail with ConflictError) a second review from the same reviewer
for the same applicant — enforced via the uniqueness invariant", with the
existence check inside the same transaction as the insert.  `averageScore` is
stored verbatim. -/
def submitReview (reviews : List Review) (s : ReviewSubmission) :
    List Review × Except String Review :=
  if reviews.any (fun r =>
      r.createdByAuthID == s.reviewerID && r.applicantId == s.applicantId) then
    (reviews, .error "ConflictError")
  else
    let r : Review :=
      { id := reviews.length
        applicantId := s.applicantId
        createdByAuthID := s.reviewerID
        averageScore := s.averageScore
        createdAt := s.createdAt }
    (r :: reviews, .ok r)

/-- Run a sequence of review submissions against an initially empty Review
table, keeping the committed state after each (successful or rejected)
submission. -/
def runSubmissions (subs : List ReviewSubmission) : List Review :=
  subs.foldl (fun acc s => (submitReview acc s).1) []

/-- Number of stored Review rows for a given (reviewer, applicant) pair. -/
def pairCount (reviews : List Review) (rid : String) (aid : Nat) : Nat :=
  (reviews.filter (fun r => r.createdByAuthID == rid && r.applicantId == aid)).length

end ReviewService

/-! ## Concrete fixtures

A well-formed applicant (field values follow the e2e test data of the repository)
and the store/infrastructure configurations used to instantiate the theorems
below. -/

def okApplicant : Applicant :=
  { id := 1
    authId := "auth1"
    age := 20
    gender := "Test"
    nationality := "UK"
    country := "UK"
    city := "Manchester"
    university := "UoM"
    yearOfStudy := "Foundation"
    degree := "CS"
    workArea := "This"
    skills := none
    hackathonCount := some 0
    whyChooseHacker := none
    pastProjects := none
    hardwareRequests := none
    dietaryRequirements := "Test"
    tShirtSize := "M"
    hearAbout := "Other"
    cv := some "u.txt"
    applicationStatus := ApplicantStatus.Applied
    createdAt := 10 }

def noCvApplicant : Applicant := { okApplicant with id := 2, cv := none }

def badAgeApplicant : Applicant := { okApplicant with age := -1 }

def badUniApplicant : Applicant := { okApplicant with university := "" }

def confirmedApplicant : Applicant :=
  { okApplicant with id := 3, applicationStatus := ApplicantStatus.Confirmed }

def rejectedApplicant : Applicant :=
  { okApplicant with id := 4, applicationStatus := ApplicantStatus.Rejected }

def st0 : Store := { blobs := [], applicants := [] }

def stApplied : Store := { blobs := ["u.txt"], applicants := [okApplicant] }

def stCheckin : Store := { blobs := [], applicants := [confirmedApplicant, rejectedApplicant] }

def infraAllOk : Infra :=
  { uploadOk := true, blobDeleteOk := true, persistOk := true, repoDeleteOk := true }

def failUploadInfra : Infra := { infraAllOk with uploadOk := false }

def failBlobDeleteInfra : Infra := { infraAllOk with blobDeleteOk := false }

/-! ## Claim theorems -/

/-- C4: for every reviewer id and every `chooseFromK`, a failure of the
underlying repository query makes `getKRandomToReview` return the empty list
(the `catch` branch logs and returns `[]`); the embedding is a total function,
so no error is ever propagated. -/
theorem c4_getKRandomToReview_failSoft (applicants : List Applicant)
    (reviews : List Review) (reviewerID : String) (k : Nat) :
    ApplicantService.getKRandomToReview false applicants reviews reviewerID k = [] :=
  rfl

/-- C1: on a successful query, `getKRandomToReview(reviewerID, chooseFromK)`
returns at most `chooseFromK` applicants, each with status `Applied`, fewer
than 2 reviews in total, and no review by `reviewerID`; the result is ordered
ascending by creation timestamp; and the default `chooseFromK` is 5. -/
theorem c1_getKRandomToReview_correct (applicants : List Applicant)
    (reviews : List Review) (reviewerID : String) (k : Nat) :
    (ApplicantService.getKRandomToReview true applicants reviews reviewerID k).length ≤ k ∧
    (∀ a ∈ ApplicantService.getKRandomToReview true applicants reviews reviewerID k,
      a.applicationStatus = ApplicantStatus.Applied ∧
      ApplicantService.reviewCountFor reviews a.id < 2 ∧
      ApplicantService.reviewedBy reviews reviewerID a.id = false) ∧
    List.Pairwise (fun a b => a.createdAt ≤ b.createdAt)
      (ApplicantService.getKRandomToReview true applicants reviews reviewerID k) ∧
    ApplicantService.getKRandomToReview true applicants reviews reviewerID =
      ApplicantService.getKRandomToReview true applicants reviews reviewerID 5 := by
  refine ⟨?_, ?_, ?_, rfl⟩
  · simp only [ApplicantService.getKRandomToReview, ApplicantService.assignmentQuery, if_pos]
    exact List.length_take_le k _
  · intro a ha
    simp only [ApplicantService.getKRandomToReview, ApplicantService.assignmentQuery,
      if_pos] at ha
    have h1 := (List.take_sublist _ _).subset ha
    have h2 := (List.mergeSort_perm _ ApplicantService.byCreatedAt).subset h1
    have h3 := List.of_mem_filter h2
    simp only [ApplicantService.eligibleForReview, Bool.and_eq_true, beq_iff_eq,
      decide_eq_true_eq, Bool.not_eq_true'] at h3
    exact ⟨h3.1.1, h3.1.2, h3.2⟩
  · have htrans : ∀ a b c : Applicant, ApplicantService.byCreatedAt a b = true →
        ApplicantService.byCreatedAt b c = true → ApplicantService.byCreatedAt a c = true := by
      intro a b c h1 h2
      simp only [ApplicantService.byCreatedAt, decide_eq_true_eq] at h1 h2 ⊢
      omega
    have htotal : ∀ a b : Applicant,
        (ApplicantService.byCreatedAt a b || ApplicantService.byCreatedAt b a) = true := by
      intro a b
      simp only [ApplicantService.byCreatedAt, Bool.or_eq_true, decide_eq_true_eq]
      omega
    have hs := @List.sorted_mergeSort Applicant ApplicantService.byCreatedAt htrans htotal
      (applicants.filter (ApplicantService.eligibleForReview reviews reviewerID))
    have hp := List.Pairwise.sublist (List.take_sublist k _) hs
    simp only [ApplicantService.getKRandomToReview, ApplicantService.assignmentQuery, if_pos]
    exact hp.imp (fun h => by
      simpa [ApplicantService.byCreatedAt, decide_eq_true_eq] using h)

/-- C2: when a CV key and a file buffer are both supplied (and validation
passes), the first infrastructure call `save` attempts is the object-storage
upload — the repository persist can only come after it; and when the upload
fails, `save` fails with the CV error, no persist is attempted, and the store
(repository rows and blobs) is exactly as before the call. -/
theorem c2_upload_before_persist (infra : Infra) (st : Store) (a : Applicant)
    (file : Option Nat) (hv : validateApplicant a = []) (hf : file.isSome = true)
    (hc : cvTruthy a = true) :
    (ApplicantService.save infra st a file).2.1.head? =
      some (Effect.uploadAttempt (a.cv.getD "")) ∧
    (infra.uploadOk = false →
      ApplicantService.save infra st a file =
        (st, [Effect.uploadAttempt (a.cv.getD "")],
          Except.error "Failed to save applicant CV")) := by
  constructor
  · simp only [ApplicantService.save, hv, hf, hc, ne_eq, not_true_eq_false,
      if_false, Bool.and_self, if_true]
    split
    · split <;> rfl
    · rfl
  · intro hu
    simp [ApplicantService.save, hv, hf, hc, hu]

/-- C2 witness: the theorem instantiated at `okApplicant` (which has
`cv = some "u.txt"`), a supplied buffer, and an infrastructure whose upload
fails. -/
theorem c2_upload_before_persist_witness :
    validateApplicant okApplicant = [] ∧ (some 1 : Option Nat).isSome = true ∧
    cvTruthy okApplicant = true ∧ failUploadInfra.uploadOk = false ∧
    (ApplicantService.save failUploadInfra st0 okApplicant (some 1)).2.1.head? =
      some (Effect.uploadAttempt "u.txt") ∧
    ApplicantService.save failUploadInfra st0 okApplicant (some 1) =
      (st0, [Effect.uploadAttempt "u.txt"], Except.error "Failed to save applicant CV") := by
  have h := c2_upload_before_persist failUploadInfra st0 okApplicant (some 1)
    (by decide) (by decide) (by decide)
  exact ⟨by decide, by decide, by decide, by decide, h.1, h.2 (by decide)⟩

/-- C9: when only one half of the (CV key, file buffer) pair is supplied —
no buffer, or no truthy CV key on the applicant — `save` skips the upload
entirely (the only infrastructure call is the persist) and, with validation
passing and a healthy repository, persists the applicant normally. -/
theorem c9_half_pair_skips_upload (infra : Infra) (st : Store) (a : Applicant)
    (file : Option Nat) (hv : validateApplicant a = [])
    (h : file = none ∨ cvTruthy a = false) (hp : infra.persistOk = true) :
    ApplicantService.save infra st a file =
      ({ st with applicants := upsertApplicant st.applicants a },
        [Effect.persistAttempt], Except.ok a) := by
  have hfc : (file.isSome && cvTruthy a) = false := by
    rcases h with h | h <;> simp [h]
  simp [ApplicantService.save, hv, hfc, hp]

/-- C9 witness: a buffer supplied with no CV key on the applicant — upload is
skipped and the record is persisted. -/
theorem c9_half_pair_skips_upload_witness :
    validateApplicant noCvApplicant = [] ∧ cvTruthy noCvApplicant = false ∧
    infraAllOk.persistOk = true ∧
    ApplicantService.save infraAllOk st0 noCvApplicant (some 7) =
      ({ st0 with applicants := upsertApplicant st0.applicants noCvApplicant },
        [Effect.persistAttempt], Except.ok noCvApplicant) :=
  ⟨by decide, by decide, by decide,
    c9_half_pair_skips_upload infraAllOk st0 noCvApplicant (some 7) (by decide)
      (Or.inr (by decide)) (by decide)⟩

/-- C5 counterexample: two applicants violating different constraints (a
negative age versus a missing university) have different violation lists, yet
`save` fails with the same fixed error `"Failed to validate applicant"` for
both — the error the caller receives cannot list the violations (they are only
logged). -/
theorem c5_counterexample_fixed_error :
    validateApplicant badAgeApplicant ≠ [] ∧
    validateApplicant badUniApplicant ≠ [] ∧
    validateApplicant badAgeApplicant ≠ validateApplicant badUniApplicant ∧
    (ApplicantService.save infraAllOk st0 badAgeApplicant none).2.2 =
      Except.error "Failed to validate applicant" ∧
    (ApplicantService.save infraAllOk st0 badUniApplicant none).2.2 =
      Except.error "Failed to validate applicant" := by
  exact ⟨by decide, by decide, by decide, rfl, rfl⟩

/-- C5 (amended): when any field constraint is violated, `save` fails with the
fixed error `"Failed to validate applicant"` (the violations are logged, not
carried by the error), attempts no infrastructure call at all, and leaves the
store unchanged — neither the upload nor the persist is performed. -/
theorem c5_validation_failure_aborts (infra : Infra) (st : Store) (a : Applicant)
    (file : Option Nat) (hv : validateApplicant a ≠ []) :
    ApplicantService.save infra st a file =
      (st, [], Except.error "Failed to validate applicant") := by
  simp [ApplicantService.save, hv]

/-- C5 witness: the amended theorem instantiated at the negative-age
applicant. -/
theorem c5_validation_failure_aborts_witness :
    validateApplicant badAgeApplicant ≠ [] ∧
    ApplicantService.save infraAllOk st0 badAgeApplicant (some 1) =
      (st0, [], Except.error "Failed to validate applicant") :=
  ⟨by decide, c5_validation_failure_aborts infraAllOk st0 badAgeApplicant (some 1) (by decide)⟩

/-- C6: `delete(id)` fails with the not-found error and changes nothing when no
applicant with that id exists; when the applicant exists with a truthy CV key
and the object-storage blob deletion fails, the failure is swallowed (both
attempts still appear in the trace), the applicant row is still deleted, and
the deletion result is returned successfully. -/
theorem c6_delete_notFound_and_bestEffort (infra : Infra) (st : Store) (id : Nat) :
    (findApplicant st id = none →
      ApplicantService.delete infra st id =
        (st, [], Except.error "Failed to find applicant using the provided ID")) ∧
    (∀ a, findApplicant st id = some a → cvTruthy a = true →
      infra.blobDeleteOk = false → infra.repoDeleteOk = true →
      ApplicantService.delete infra st id =
        ({ st with applicants := st.applicants.filter (fun x => x.id ≠ id) },
          [Effect.blobDeleteAttempt (a.cv.getD ""), Effect.repoDeleteAttempt],
          Except.ok ())) := by
  constructor
  · intro hnone
    simp [ApplicantService.delete, hnone]
  · intro a hfind hc hb hr
    simp [ApplicantService.delete, hfind, hc, hb, hr]

/-- C6 witness: the not-found branch on the empty store, and the best-effort
branch on a store holding `okApplicant` with a failing blob deletion. -/
theorem c6_delete_witness :
    findApplicant st0 1 = none ∧
    ApplicantService.delete infraAllOk st0 1 =
      (st0, [], Except.error "Failed to find applicant using the provided ID") ∧
    findApplicant stApplied 1 = some okApplicant ∧
    cvTruthy okApplicant = true ∧ failBlobDeleteInfra.blobDeleteOk = false ∧
    failBlobDeleteInfra.repoDeleteOk = true ∧
    ApplicantService.delete failBlobDeleteInfra stApplied 1 =
      ({ stApplied with applicants := stApplied.applicants.filter (fun x => x.id ≠ 1) },
        [Effect.blobDeleteAttempt "u.txt", Effect.repoDeleteAttempt], Except.ok ()) :=
  ⟨by decide, (c6_delete_notFound_and_bestEffort infraAllOk st0 1).1 (by decide),
    by decide, by decide, by decide, by decide,
    (c6_delete_notFound_and_bestEffort failBlobDeleteInfra stApplied 1).2 okApplicant
      (by decide) (by decide) (by decide) (by decide)⟩

/-- The modelled field-shape validation reads only profile fields, never
`applicationStatus`, so a pure status transition preserves its outcome. -/
theorem validateApplicant_status (a : Applicant) (s : ApplicantStatus) :
    validateApplicant { a with applicationStatus := s } = validateApplicant a :=
  rfl

/-- The status transition performed by the check-in flow
(`application.applicationStatus = ApplicantStatus.Admitted`). -/
def admitted (a : Applicant) : Applicant :=
  { a with applicationStatus := ApplicantStatus.Admitted }

/-- C7: for an applicant the check-in id resolves to (well-formed, with a
healthy repository), check-in succeeds exactly when the current status is
`Confirmed`: in that case the status becomes `Admitted` and the updated
applicant is saved; for any other current status the request is answered with
a 400 and the store is untouched. -/
theorem c7_checkin_confirmed_only (infra : Infra) (st : Store) (id : Nat)
    (a : Applicant) (hfind : findApplicant st id = some a)
    (hv : validateApplicant a = []) (hp : infra.persistOk = true) :
    (a.applicationStatus = ApplicantStatus.Confirmed →
      ApplicationController.checkin infra st id =
        ({ st with applicants := upsertApplicant st.applicants (admitted a) },
          ApplicationController.HttpOutcome.ok "Hacker checked in!")) ∧
    (a.applicationStatus ≠ ApplicantStatus.Confirmed →
      ApplicationController.checkin infra st id =
        (st, ApplicationController.HttpOutcome.badRequest
          "Hacker was either rejected or did not confirm")) := by
  constructor
  · intro hconf
    have hv2 : validateApplicant { a with applicationStatus := ApplicantStatus.Admitted } = [] := by
      rw [validateApplicant_status]; exact hv
    simp [ApplicationController.checkin, hfind, hconf, ApplicantService.save, hv2, hp,
      cvTruthy, admitted]
  · intro hne
    simp [ApplicationController.checkin, hfind, hne]

/-- C7 witness: the theorem applied to a store holding a `Confirmed` applicant
(check-in succeeds and admits them) and a `Rejected` applicant (check-in is
refused with the store untouched). -/
theorem c7_checkin_witness :
    findApplicant stCheckin 3 = some confirmedApplicant ∧
    validateApplicant confirmedApplicant = [] ∧ infraAllOk.persistOk = true ∧
    confirmedApplicant.applicationStatus = ApplicantStatus.Confirmed ∧
    ApplicationController.checkin infraAllOk stCheckin 3 =
      ({ stCheckin with applicants := upsertApplicant stCheckin.applicants (admitted confirmedApplicant) },
        ApplicationController.HttpOutcome.ok "Hacker checked in!") ∧
    findApplicant stCheckin 4 = some rejectedApplicant ∧
    rejectedApplicant.applicationStatus ≠ ApplicantStatus.Confirmed ∧
    ApplicationController.checkin infraAllOk stCheckin 4 =
      (stCheckin, ApplicationController.HttpOutcome.badRequest
        "Hacker was either rejected or did not confirm") :=
  ⟨by decide, by decide, by decide, by decide,
    (c7_checkin_confirmed_only infraAllOk stCheckin 3 confirmedApplicant (by decide)
      (by decide) (by decide)).1 (by decide),
    by decide, by decide,
    (c7_checkin_confirmed_only infraAllOk stCheckin 4 rejectedApplicant (by decide)
      (by decide) (by decide)).2 (by decide)⟩

/-- C8 (code bug): on the failing input — an applicant with status `Applied`,
applications open — the cancellation flow enters its delete branch, but that
branch calls `this._applicantService.remove(...)`, a method `ApplicantService`
does not define (its interface and the e2e test
`Test applicant deleted when application open` use `delete`), so the request
errors via `next` and the applicant row is NOT deleted: the store is returned
unchanged and the applicant is still found afterwards.  The claim (and the
own test of the repository) say the record is deleted here. -/
theorem c8_cancel_delete_branch_broken :
    okApplicant.applicationStatus.code ≤ ApplicantStatus.Applied.code ∧
    ApplicationController.cancel true infraAllOk stApplied "auth1" =
      (stApplied, ApplicationController.HttpOutcome.nextError
        "TypeError: this._applicantService.remove is not a function") ∧
    findApplicant (ApplicationController.cancel true infraAllOk stApplied "auth1").1 1 =
      some okApplicant := by
  exact ⟨by decide, by decide, by decide⟩

/-- The Review row inserted by `submitReview`. -/
def ReviewService.insertedRow (acc : List Review) (s : ReviewService.ReviewSubmission) :
    Review :=
  { id := acc.length
    applicantId := s.applicantId
    createdByAuthID := s.reviewerID
    averageScore := s.averageScore
    createdAt := s.createdAt }

theorem ReviewService.pairCount_cons (r : Review) (l : List Review) (rid : String)
    (aid : Nat) :
    ReviewService.pairCount (r :: l) rid aid =
      (if (r.createdByAuthID == rid && r.applicantId == aid) = true then 1 else 0) +
        ReviewService.pairCount l rid aid := by
  simp only [ReviewService.pairCount, List.filter_cons]
  split <;> simp [Nat.add_comm]

theorem ReviewService.pairCount_eq_zero_of_any_false (l : List Review) (rid : String)
    (aid : Nat)
    (h : l.any (fun r => r.createdByAuthID == rid && r.applicantId == aid) = false) :
    ReviewService.pairCount l rid aid = 0 := by
  rw [ReviewService.pairCount, List.length_eq_zero, List.filter_eq_nil_iff]
  intro r hr
  have := List.any_eq_false.mp h r hr
  simpa using this

/-- C3 (modelled from the spec): under the Review Recording Service model, any
sequence of submissions starting from an empty Review table leaves at most one
Review per (reviewer, applicant) pair; and whenever a row for the pair already
exists, a further submission for that pair is rejected with `ConflictError`
and leaves the table exactly as it was. -/
theorem c3_review_pair_unique :
    (∀ (subs : List ReviewService.ReviewSubmission) (rid : String) (aid : Nat),
      ReviewService.pairCount (ReviewService.runSubmissions subs) rid aid ≤ 1) ∧
    (∀ (reviews : List Review) (s : ReviewService.ReviewSubmission),
      1 ≤ ReviewService.pairCount reviews s.reviewerID s.applicantId →
      ReviewService.submitReview reviews s = (reviews, Except.error "ConflictError")) := by
  have hdup : ∀ (reviews : List Review) (s : ReviewService.ReviewSubmission),
      1 ≤ ReviewService.pairCount reviews s.reviewerID s.applicantId →
      ReviewService.submitReview reviews s = (reviews, Except.error "ConflictError") := by
    intro reviews s h
    obtain ⟨r, hr⟩ := List.exists_mem_of_length_pos h
    have hmem := List.mem_filter.mp hr
    have hany : reviews.any (fun r =>
        r.createdByAuthID == s.reviewerID && r.applicantId == s.applicantId) = true :=
      List.any_eq_true.mpr ⟨r, hmem.1, hmem.2⟩
    simp [ReviewService.submitReview, hany]
  refine ⟨?_, hdup⟩
  have hstep : ∀ (acc : List Review) (s : ReviewService.ReviewSubmission) (rid : String)
      (aid : Nat), ReviewService.pairCount acc rid aid ≤ 1 →
      ReviewService.pairCount (ReviewService.submitReview acc s).1 rid aid ≤ 1 := by
    intro acc s rid aid h
    by_cases hany : acc.any (fun r =>
        r.createdByAuthID == s.reviewerID && r.applicantId == s.applicantId) = true
    · simpa [ReviewService.submitReview, hany] using h
    · simp only [Bool.not_eq_true] at hany
      have hgoal : (ReviewService.submitReview acc s).1 =
          ReviewService.insertedRow acc s :: acc := by
        simp [ReviewService.submitReview, hany, ReviewService.insertedRow]
      rw [hgoal, ReviewService.pairCount_cons]
      by_cases hpair : ((ReviewService.insertedRow acc s).createdByAuthID == rid &&
          (ReviewService.insertedRow acc s).applicantId == aid) = true
      · have hps : s.reviewerID = rid ∧ s.applicantId = aid := by
          simpa [ReviewService.insertedRow] using hpair
        have hzero : ReviewService.pairCount acc rid aid = 0 := by
          apply ReviewService.pairCount_eq_zero_of_any_false
          rw [← hps.1, ← hps.2]
          exact hany
        rw [hpair, if_pos rfl, hzero]
      · rw [if_neg hpair, Nat.zero_add]
        exact h
  intro subs rid aid
  have hgen : ∀ (acc : List Review),
      (∀ (rid2 : String) (aid2 : Nat), ReviewService.pairCount acc rid2 aid2 ≤ 1) →
      ∀ (rid2 : String) (aid2 : Nat),
        ReviewService.pairCount
          (subs.foldl (fun acc s => (ReviewService.submitReview acc s).1) acc) rid2 aid2 ≤ 1 := by
    induction subs with
    | nil => intro acc hacc rid2 aid2; exact hacc rid2 aid2
    | cons s rest ih =>
      intro acc hacc rid2 aid2
      exact ih (ReviewService.submitReview acc s).1
        (fun rid3 aid3 => hstep acc s rid3 aid3 (hacc rid3 aid3)) rid2 aid2
  exact hgen [] (fun rid2 aid2 => by simp [ReviewService.pairCount]) rid aid

/-- A first review by `"rev1"` for applicant `1`, and a second submission for
the same pair. -/
def demoReview : Review :=
  { id := 0, applicantId := 1, createdByAuthID := "rev1", averageScore := 2, createdAt := 0 }

def demoSub1 : ReviewService.ReviewSubmission :=
  { reviewerID := "rev1", applicantId := 1, averageScore := 2, createdAt := 0 }

def demoSub2 : ReviewService.ReviewSubmission :=
  { reviewerID := "rev1", applicantId := 1, averageScore := 5, createdAt := 3 }

/-- C3 witness: submitting the same (reviewer, applicant) pair twice from an
empty table leaves at most one row; against a table that already holds the
pair, the submission is rejected with `ConflictError` and the table is
unchanged. -/
theorem c3_review_pair_unique_witness :
    ReviewService.pairCount (ReviewService.runSubmissions [demoSub1, demoSub2]) "rev1" 1 ≤ 1 ∧
    1 ≤ ReviewService.pairCount [demoReview] demoSub2.reviewerID demoSub2.applicantId ∧
    ReviewService.submitReview [demoReview] demoSub2 =
      ([demoReview], Except.error "ConflictError") :=
  ⟨c3_review_pair_unique.1 [demoSub1, demoSub2] "rev1" 1,
    by decide,
    c3_review_pair_unique.2 [demoReview] demoSub2 (by decide)⟩

/-- The finite value of a JavaScript number, when it is finite. -/
def JSNum.finValue : JSNum → Option Int
  | .fin n => some n
  | _ => none

/-- C10: each of the four `x || y || "Other"` fields on the constructed
applicant (gender, workArea, dietaryRequirements, hearAbout) is the payload
"...Other" free-text value when that is present (truthy — JavaScript `||`
treats `undefined`, `""` and `0` as absent), otherwise the selected value when
present, otherwise the literal `"Other"`; and `hackathonCount` is the numeric
value of the payload field when `isNumeric` accepts it (it then is a finite
number), otherwise absent.  The construction is a total function, so an
unparsable count can never fail the submission. -/
theorem c10_submission_defaults (reqAuthId : String)
    (p : ApplicationController.ApplicationPayload) :
    (jsTruthy p.applicantGenderOther = true →
      (ApplicationController.buildApplication reqAuthId p).gender =
        jsValToString p.applicantGenderOther) ∧
    (jsTruthy p.applicantGenderOther = false → jsTruthy p.applicantGender = true →
      (ApplicationController.buildApplication reqAuthId p).gender =
        jsValToString p.applicantGender) ∧
    (jsTruthy p.applicantGenderOther = false → jsTruthy p.applicantGender = false →
      (ApplicationController.buildApplication reqAuthId p).gender = "Other") ∧
    (jsTruthy p.applicantWorkAreaOther = true →
      (ApplicationController.buildApplication reqAuthId p).workArea =
        jsValToString p.applicantWorkAreaOther) ∧
    (jsTruthy p.applicantWorkAreaOther = false → jsTruthy p.applicantWorkArea = true →
      (ApplicationController.buildApplication reqAuthId p).workArea =
        jsValToString p.applicantWorkArea) ∧
    (jsTruthy p.applicantWorkAreaOther = false → jsTruthy p.applicantWorkArea = false →
      (ApplicationController.buildApplication reqAuthId p).workArea = "Other") ∧
    (jsTruthy p.applicantDietaryRequirementsOther = true →
      (ApplicationController.buildApplication reqAuthId p).dietaryRequirements =
        jsValToString p.applicantDietaryRequirementsOther) ∧
    (jsTruthy p.applicantDietaryRequirementsOther = false →
      jsTruthy p.applicantDietaryRequirements = true →
      (ApplicationController.buildApplication reqAuthId p).dietaryRequirements =
        jsValToString p.applicantDietaryRequirements) ∧
    (jsTruthy p.applicantDietaryRequirementsOther = false →
      jsTruthy p.applicantDietaryRequirements = false →
      (ApplicationController.buildApplication reqAuthId p).dietaryRequirements = "Other") ∧
    (jsTruthy p.applicantHearAboutOther = true →
      (ApplicationController.buildApplication reqAuthId p).hearAbout =
        jsValToString p.applicantHearAboutOther) ∧
    (jsTruthy p.applicantHearAboutOther = false → jsTruthy p.applicantHearAbout = true →
      (ApplicationController.buildApplication reqAuthId p).hearAbout =
        jsValToString p.applicantHearAbout) ∧
    (jsTruthy p.applicantHearAboutOther = false → jsTruthy p.applicantHearAbout = false →
      (ApplicationController.buildApplication reqAuthId p).hearAbout = "Other") ∧
    (ApplicationController.isNumeric p.applicantHackathonCount = true →
      (ApplicationController.buildApplication reqAuthId p).hackathonCount =
        (jsNumber p.applicantHackathonCount).finValue ∧
      ((jsNumber p.applicantHackathonCount).finValue).isSome = true) ∧
    (ApplicationController.isNumeric p.applicantHackathonCount = false →
      (ApplicationController.buildApplication reqAuthId p).hackathonCount = none) := by
  refine ⟨?_, ?_, ?_, ?_, ?_, ?_, ?_, ?_, ?_, ?_, ?_, ?_, ?_, ?_⟩
  case _ => intro h1
            simp [ApplicationController.buildApplication, ApplicationController.firstTruthy, h1]
  case _ => intro h1 h2
            simp [ApplicationController.buildApplication, ApplicationController.firstTruthy,
              h1, h2]
  case _ => intro h1 h2
            simp [ApplicationController.buildApplication, ApplicationController.firstTruthy,
              h1, h2, jsValToString]
  case _ => intro h1
            simp [ApplicationController.buildApplication, ApplicationController.firstTruthy, h1]
  case _ => intro h1 h2
            simp [ApplicationController.buildApplication, ApplicationController.firstTruthy,
              h1, h2]
  case _ => intro h1 h2
            simp [ApplicationController.buildApplication, ApplicationController.firstTruthy,
              h1, h2, jsValToString]
  case _ => intro h1
            simp [ApplicationController.buildApplication, ApplicationController.firstTruthy, h1]
  case _ => intro h1 h2
            simp [ApplicationController.buildApplication, ApplicationController.firstTruthy,
              h1, h2]
  case _ => intro h1 h2
            simp [ApplicationController.buildApplication, ApplicationController.firstTruthy,
              h1, h2, jsValToString]
  case _ => intro h1
            simp [ApplicationController.buildApplication, ApplicationController.firstTruthy, h1]
  case _ => intro h1 h2
            simp [ApplicationController.buildApplication, ApplicationController.firstTruthy,
              h1, h2]
  case _ => intro h1 h2
            simp [ApplicationController.buildApplication, ApplicationController.firstTruthy,
              h1, h2, jsValToString]
  case _ =>
    intro h
    have hfin : (jsNumber p.applicantHackathonCount).isFinite = true := by
      have := h
      simp only [ApplicationController.isNumeric, Bool.and_eq_true] at this
      exact this.2
    cases hjs : jsNumber p.applicantHackathonCount with
    | fin n =>
      constructor
      · simp [ApplicationController.buildApplication,
          ApplicationController.submittedHackathonCount, h, hjs, JSNum.finValue]
      · simp [hjs, JSNum.finValue]
    | nan => rw [hjs] at hfin; simp [JSNum.isFinite] at hfin
    | posInf => rw [hjs] at hfin; simp [JSNum.isFinite] at hfin
    | negInf => rw [hjs] at hfin; simp [JSNum.isFinite] at hfin
  case _ =>
    intro h
    simp [ApplicationController.buildApplication,
      ApplicationController.submittedHackathonCount, h]

/-- A concrete payload: a free-text gender ("Test"), a selected work area with
no free text, no dietary selection at all, a selected hear-about with an empty
free-text field, and a numeric hackathon count. -/
def pOtherPayload : ApplicationController.ApplicationPayload :=
  { applicantAge := JSVal.num 20
    applicantGender := JSVal.str "Other"
    applicantGenderOther := JSVal.str "Test"
    applicantNationality := "UK"
    applicantCountry := "UK"
    applicantCity := "Manchester"
    applicantUniversity := "UoM"
    applicantStudyYear := "Foundation"
    applicantDegree := "CS"
    applicantWorkArea := JSVal.str "Other"
    applicantWorkAreaOther := JSVal.undef
    applicantSkills := none
    applicantHackathonCount := JSVal.num 0
    applicantWhyChoose := none
    applicantPastProj := none
    applicantHardwareReq := none
    applicantDietaryRequirements := JSVal.undef
    applicantDietaryRequirementsOther := JSVal.undef
    applicantTShirt := "M"
    applicantHearAbout := JSVal.str "IDK"
    applicantHearAboutOther := JSVal.str "" }

/-- The same payload with an unparsable hackathon count. -/
def pBadCountPayload : ApplicationController.ApplicationPayload :=
  { pOtherPayload with applicantHackathonCount := JSVal.str "abc" }

/-- C10 witness: the theorem instantiated at the two concrete payloads,
covering the free-text case, the selected-value case, the double-absence
default, and both sides of the `isNumeric` conditional. -/
theorem c10_submission_defaults_witness :
    jsTruthy pOtherPayload.applicantGenderOther = true ∧
    (ApplicationController.buildApplication "u" pOtherPayload).gender = "Test" ∧
    jsTruthy pOtherPayload.applicantWorkAreaOther = false ∧
    jsTruthy pOtherPayload.applicantWorkArea = true ∧
    (ApplicationController.buildApplication "u" pOtherPayload).workArea = "Other" ∧
    jsTruthy pOtherPayload.applicantDietaryRequirementsOther = false ∧
    jsTruthy pOtherPayload.applicantDietaryRequirements = false ∧
    (ApplicationController.buildApplication "u" pOtherPayload).dietaryRequirements = "Other" ∧
    jsTruthy pOtherPayload.applicantHearAboutOther = false ∧
    jsTruthy pOtherPayload.applicantHearAbout = true ∧
    (ApplicationController.buildApplication "u" pOtherPayload).hearAbout = "IDK" ∧
    ApplicationController.isNumeric pOtherPayload.applicantHackathonCount = true ∧
    (ApplicationController.buildApplication "u" pOtherPayload).hackathonCount = some 0 ∧
    ApplicationController.isNumeric pBadCountPayload.applicantHackathonCount = false ∧
    (ApplicationController.buildApplication "u" pBadCountPayload).hackathonCount = none := by
  obtain ⟨h1, h2, h3, h4, h5, h6, h7, h8, h9, h10, h11, h12, h13, h14⟩ :=
    c10_submission_defaults "u" pOtherPayload
  obtain ⟨g1, g2, g3, g4, g5, g6, g7, g8, g9, g10, g11, g12, g13, g14⟩ :=
    c10_submission_defaults "u" pBadCountPayload
  refine ⟨by decide, h1 (by decide), by decide, by decide, h5 (by decide) (by decide),
    by decide, by decide, h9 (by decide) (by decide), by decide, by decide,
    h11 (by decide) (by decide), by decide, (h13 (by decide)).1, by decide,
    g14 (by decide)⟩
